import Mathlib

/-!
Shallow embedding of the kfastml repository (request-id generation, JSON
response shaping, S3 storage wrappers, image preprocessing, and the
watermark-removal model server loop and model loading), together with
theorems checking the natural-language specification against the code.

Machine floating point is modelled by exact rationals, external
collaborators (boto3, PIL decoding, the torch model, the async fetcher)
by explicit oracle arguments, and Python exceptions by Except values or
an explicit raised field.
-/

namespace KFastml

/-- Byte payloads (io.BytesIO contents) as lists of byte values. -/
abbrev Bytes := List Nat

/-- JSON values, for the response envelope built by build_json_response. -/
inductive Json where
  | null : Json
  | str : String → Json
  | num : Int → Json
  | arr : List Json → Json
  | obj : List (String × Json) → Json

/-- Modelled from the spec: InferenceTaskResult (kfastml.engine.inference_engine
is not under src/) carries a finished_reason and an opaque result mapping;
build_json_response reads exactly these two fields. -/
structure InferenceTaskResult where
  finished_reason : String
  result : Json

/-- Lowercase hexadecimal digit character for a value below 16
(uuid hex tokens use lowercase hexadecimal). -/
def hexChar (n : Nat) : Char :=
  Char.ofNat (if n < 10 then 48 + n else 87 + n)

/-- The k least-significant base-16 digits of n, least significant first. -/
def hexDigitsAux : Nat → Nat → List Char
  | 0, _ => []
  | k + 1, n => hexChar (n % 16) :: hexDigitsAux k (n / 16)

/-- The hex attribute of a 128-bit uuid value: 32 lowercase hexadecimal
digits, most significant first. -/
def uuidHex (n : Nat) : String :=
  String.mk (hexDigitsAux 32 n).reverse

/-- Embedding of gen_request_id: the api_name, an underscore, and the random
token in hexadecimal; the uuid4 draw is passed explicitly as u. -/
def gen_request_id (api_name : String) (u : Nat) : String :=
  api_name ++ "_" ++ uuidHex u

/-- Embedding of build_json_response: the JSONResponse content dict, with the
clock reading of datetime.now() passed explicitly as now. -/
def build_json_response (now : String) (request_id : String)
    (job_result : InferenceTaskResult) : Json :=
  Json.obj [("created", Json.str now),
            ("id", Json.str request_id),
            ("finished_reason", Json.str job_result.finished_reason),
            ("result", job_result.result)]

/-- Field lookup in a JSON object field list (first match wins); this is the
decoding step that reads a field back out of an encoded envelope. -/
def lookupKey : List (String × Json) → String → Option Json
  | [], _ => none
  | (k1, v) :: rest, k => if k1 = k then some v else lookupKey rest k

/-- Field lookup on a JSON value; none when the value is not an object. -/
def lookupField (j : Json) (k : String) : Option Json :=
  match j with
  | Json.obj fields => lookupKey fields k
  | _ => none

/-- The field names of a JSON object, in order. -/
def fieldKeys (j : Json) : List String :=
  match j with
  | Json.obj fields => fields.map Prod.fst
  | _ => []

/-- Embedding of download_from_s3: the boto3 download is the oracle s3get;
any exception is caught and None is returned, otherwise the bytes. -/
def download_from_s3 (s3get : String → String → Except String Bytes)
    (bucket : String) (object_path : String) : Option Bytes :=
  match s3get bucket object_path with
  | .ok file_data => some file_data
  | .error _ => none

/-- Embedding of upload_to_s3: the boto3 put_object call is the oracle s3put;
any exception is caught and None is returned, otherwise the locator string
s3://bucket/object_path. The payload type is abstract because the call sites
pass tensors where the annotation says bytes. -/
def upload_to_s3 {α : Type} (s3put : α → String → String → Except String Unit)
    (data : α) (bucket : String) (object_path : String) : Option String :=
  match s3put data bucket object_path with
  | .error _ => none
  | .ok _ => some ("s3://" ++ bucket ++ "/" ++ object_path)

/-- A character is a lowercase hexadecimal digit. -/
def isLowerHexDigit (c : Char) : Bool :=
  (48 ≤ c.toNat && c.toNat ≤ 57) || (97 ≤ c.toNat && c.toNat ≤ 102)

/-- The module-level BUCKET_NAME constant of model_server.py. -/
def BUCKET_NAME : String := ""

/-- A 3-d image tensor as unpacked by resize_image: channels, height, width,
with opaque pixel data. -/
structure ImgTensor where
  channels : Nat
  height : Nat
  width : Nat
  data : List ℚ
deriving DecidableEq

/-- Round a rational to the nearest integer with ties to even, the rounding
used by torch.round (machine floats are modelled by exact rationals). -/
def roundHalfEvenQ (q : ℚ) : ℤ :=
  let f : ℤ := ⌊q⌋
  let frac : ℚ := q - f
  if frac < 1 / 2 then f
  else if (1 : ℚ) / 2 < frac then f + 1
  else if f % 2 = 0 then f else f + 1

/-- The torch.where call of resize_image as the source makes it: height and
width are plain Python ints unpacked from the shape tuple, so the condition
height > width is a Python bool, and torch.where requires a Tensor condition,
so the call raises TypeError before computing any value (the source silences
exactly this complaint with a noinspection PyTypeChecker comment). -/
def torchWhereBoolCond (_condition : Bool) (_x _y : ℚ) : Except String ℚ :=
  .error "TypeError: where(): argument condition (position 1) must be Tensor, not bool"

/-- Embedding of resize_image. The source unpacks _, height, width from the
tensor shape (Python ints), then computes
scale_factor = torch.where(height > width, min_dimension / height,
max_dimension / width): that call raises TypeError on every input because the
condition is a Python bool rather than a Tensor, so nothing after line 28
ever runs. The translation of the unreachable remainder is kept for
reference: new_height = round(height * scale), new_width =
round(width * scale), return the input unchanged when both targets equal the
current size, otherwise F.interpolate(input.unsqueeze(0),
size=(new_height, new_width)), represented as Sum.inr of the target size and
the input since bilinear interpolation is an external torch collaborator. -/
def resize_image (image_tensor : ImgTensor) (min_dimension : Nat := 768)
    (max_dimension : Nat := 1024) :
    Except String (ImgTensor ⊕ (Nat × Nat × ImgTensor)) := do
  let height := image_tensor.height
  let width := image_tensor.width
  let scale_factor ← torchWhereBoolCond (decide (width < height))
    ((min_dimension : ℚ) / (height : ℚ)) ((max_dimension : ℚ) / (width : ℚ))
  let new_height := (roundHalfEvenQ ((height : ℚ) * scale_factor)).toNat
  let new_width := (roundHalfEvenQ ((width : ℚ) * scale_factor)).toNat
  if new_width = width ∧ new_height = height then return Sum.inl image_tensor
  else return Sum.inr (new_height, new_width, image_tensor)

/-- A loaded torch model: its flattened parameter values, dtype tag,
device tag and training flag. -/
structure TorchModel where
  params : List ℚ
  dtype : String
  device : String
  training : Bool

/-- The denormal threshold eps = 1e-5 of _load_model. -/
def denorm_eps : ℚ := 1 / 100000

/-- Embedding of the _load_model pipeline after deserialization: joblib
deserialization is the boundary and yields the parameter list (a model
fresh from joblib.load is float32, on cpu, in training mode); then the
denormal cleanup pass zeroes every parameter of magnitude below eps; then
half() converts each parameter to reduced precision (the conversion is
the oracle halfRound) and to(cuda:0) moves the model; finally eval()
clears the training flag. The order of the four steps is the order of
the statements in the source. -/
def load_model (deserialized : List ℚ) (halfRound : ℚ → ℚ) : TorchModel :=
  let m0 : TorchModel :=
    { params := deserialized, dtype := "float32", device := "cpu", training := true }
  let m1 : TorchModel :=
    { m0 with params := m0.params.map (fun param => if |param| < denorm_eps then 0 else param) }
  let m2 : TorchModel :=
    { m1 with params := m1.params.map halfRound, dtype := "float16", device := "cuda:0" }
  { m2 with training := false }

/-- A PIL image at the image_to_tensor boundary: mode, size, band count and
the flattened channel-last pixel values (each below 256 after the uint8
conversion; mode 1 images have pixel values 0 or 1). -/
structure PILImage where
  mode : String
  width : Nat
  height : Nat
  bands : Nat
  pixels : List Nat

/-- An integer (uint8) tensor: shape and flattened row-major data. -/
structure U8Tensor where
  shape : List Nat
  data : List Nat

/-- A float tensor: shape and flattened row-major data, floats as exact
rationals. -/
structure FTensor where
  shape : List Nat
  data : List ℚ

/-- Number of elements of a shape. -/
def numel (shape : List Nat) : Nat := shape.foldr (· * ·) 1

/-- np.array(image, np.uint8): shape (height, width) for a single-band
image, (height, width, bands) otherwise, values taken mod 256. -/
def npFromImage (image : PILImage) : U8Tensor :=
  { shape := if image.bands = 1 then [image.height, image.width]
             else [image.height, image.width, image.bands],
    data := image.pixels.map (fun v => v % 256) }

/-- In-place uint8 scalar multiply (image_tensor *= 255), with uint8
wraparound. -/
def u8scale (t : U8Tensor) (c : Nat) : U8Tensor :=
  { t with data := t.data.map (fun v => v * c % 256) }

/-- Tensor.view: succeeds when the requested shape has the same number of
elements, keeping the data; raises otherwise. -/
def u8view (t : U8Tensor) (newShape : List Nat) : Except String U8Tensor :=
  if numel newShape = numel t.shape then .ok { shape := newShape, data := t.data }
  else .error "RuntimeError: shape is invalid for input size"

/-- Multi-index of flat index i in a row-major shape. -/
def digitsMixed : List Nat → Nat → List Nat
  | [], _ => []
  | _ :: rest, i => i / numel rest :: digitsMixed rest (i % numel rest)

/-- Flat row-major index of a multi-index. -/
def flattenIdx : List Nat → List Nat → Nat
  | _ :: rest, j :: js => j * numel rest + flattenIdx rest js
  | _, _ => 0

/-- Tensor.permute dims: output axis j is input axis dims[j]; requires as
many dims as the tensor rank (otherwise torch raises RuntimeError: number
of dims do not match in permute). -/
def u8permute (t : U8Tensor) (dims : List Nat) : Except String U8Tensor :=
  if dims.length = t.shape.length ∧ dims.all (· < t.shape.length) ∧ dims.Nodup then
    let pshape := dims.map (fun d => t.shape.getD d 0)
    .ok { shape := pshape,
          data := (List.range (numel pshape)).map (fun i =>
            let m := digitsMixed pshape i
            let s := (List.range t.shape.length).map (fun k => m.getD (dims.indexOf k) 0)
            t.data.getD (flattenIdx t.shape s) 0) }
  else .error "RuntimeError: number of dims do not match in permute"

/-- Tensor.float().div(255.0): cast to float and divide every entry by 255. -/
def u8toFloatDiv255 (t : U8Tensor) : FTensor :=
  { shape := t.shape, data := t.data.map (fun v => (v : ℚ) / 255) }

/-- Embedding of image_to_tensor. The source converts the PIL image with
np.array(image, np.uint8), multiplies in place by 255 for mode 1 images,
then calls view(height, width, channels) and permute(2, 0, 1) but discards
both results (the calls still run, so a rank-2 tensor makes permute raise),
and finally returns image_tensor.float().div(255.0).unsqueeze() where
unsqueeze is called without its required dim argument, which raises
TypeError. -/
def image_to_tensor (image : PILImage) : Except String FTensor := do
  let t0 := npFromImage image
  let image_tensor := if image.mode = "1" then u8scale t0 255 else t0
  let image_channels := image.bands
  let _ ← u8view image_tensor [image.height, image.width, image_channels]
  let _ ← u8permute image_tensor [2, 0, 1]
  let _f := u8toFloatDiv255 image_tensor
  .error "TypeError: unsqueeze() missing 1 required positional argument: dim"

/-- Observable outcome of one _image_to_image call: the escaped exception if
one was raised, the two output lists of the returned dict, and the ordered
trace of (bucket, key) pairs passed to upload_to_s3. -/
structure I2IOutcome where
  raised : Option String
  images_uri : List (Option String)
  cleaned_images_uri : List (Option String)
  put_keys : List (String × String)
deriving DecidableEq

/-- The per-item loop of _image_to_image over the completion-ordered fetch
results, carrying the lists accumulated so far. An item with an absent
payload is skipped (continue); otherwise Image.open (oracle openImage) and
image_to_tensor run, the model (oracle model) is applied under no_grad, and
upload_to_s3 is called for the original and the predicted tensor; an
uncaught exception stops the loop and escapes. -/
def image_to_image_go (openImage : Bytes → Except String PILImage)
    (model : FTensor → FTensor)
    (s3put : FTensor → String → String → Except String Unit)
    (acc : I2IOutcome) : List (String × Option Bytes) → I2IOutcome
  | [] => acc
  | (image_uri, image_data) :: rest =>
    match image_data with
    | none => image_to_image_go openImage model s3put acc rest
    | some payload =>
      match openImage payload with
      | .error e => { acc with raised := some e }
      | .ok image =>
        match image_to_tensor image with
        | .error e => { acc with raised := some e }
        | .ok image_tensor =>
          let predicted := model image_tensor
          let key1 := image_uri ++ "_original.png"
          let key2 := image_uri ++ "_predicted.png"
          let s1 := upload_to_s3 s3put image_tensor BUCKET_NAME key1
          let s2 := upload_to_s3 s3put predicted BUCKET_NAME key2
          image_to_image_go openImage model s3put
            { acc with
              images_uri := acc.images_uri ++ [s1],
              cleaned_images_uri := acc.cleaned_images_uri ++ [s2],
              put_keys := acc.put_keys ++ [(BUCKET_NAME, key1), (BUCKET_NAME, key2)] }
            rest

/-- Embedding of _image_to_image. Modelled from the spec: the asset fetcher
download_uris_async (kfastml.utils.network, not under src/) resolves each
reference concurrently into a pair of the original reference and the payload
or its absence, consumed in completion order; that completion-ordered result
list is the input fetched. The loop body, image_to_tensor and upload_to_s3
are embedded from the source. -/
def image_to_image (openImage : Bytes → Except String PILImage)
    (model : FTensor → FTensor)
    (s3put : FTensor → String → String → Except String Unit)
    (fetched : List (String × Option Bytes)) : I2IOutcome :=
  image_to_image_go openImage model s3put
    { raised := none, images_uri := [], cleaned_images_uri := [], put_keys := [] } fetched

/-! ## Helper lemmas -/

theorem hexChar_inj_fin : ∀ m n : Fin 16, hexChar m.val = hexChar n.val → m = n := by
  decide

theorem hexChar_isHex : ∀ m : Fin 16, isLowerHexDigit (hexChar m.val) = true := by
  decide

theorem hexDigitsAux_length : ∀ (k n : Nat), (hexDigitsAux k n).length = k := by
  intro k
  induction k with
  | zero => intro n; rfl
  | succ k ih => intro n; simp [hexDigitsAux, ih]

theorem hexDigitsAux_all_hex : ∀ (k n : Nat),
    (hexDigitsAux k n).all isLowerHexDigit = true := by
  intro k
  induction k with
  | zero => intro n; rfl
  | succ k ih =>
    intro n
    simp only [hexDigitsAux, List.all_cons, ih, Bool.and_true]
    exact hexChar_isHex ⟨n % 16, Nat.mod_lt _ (by norm_num)⟩

theorem hexDigitsAux_inj : ∀ (k m n : Nat), m < 16 ^ k → n < 16 ^ k →
    hexDigitsAux k m = hexDigitsAux k n → m = n := by
  intro k
  induction k with
  | zero =>
    intro m n hm hn _
    simp only [pow_zero] at hm hn
    omega
  | succ k ih =>
    intro m n hm hn heq
    simp only [hexDigitsAux, List.cons.injEq] at heq
    obtain ⟨h1, h2⟩ := heq
    have hm16 : m % 16 < 16 := Nat.mod_lt _ (by norm_num)
    have hn16 : n % 16 < 16 := Nat.mod_lt _ (by norm_num)
    have hhead : m % 16 = n % 16 := by
      have := hexChar_inj_fin ⟨m % 16, hm16⟩ ⟨n % 16, hn16⟩ h1
      simpa using this
    have hpow : (16 : Nat) ^ (k + 1) = 16 ^ k * 16 := pow_succ 16 k
    rw [hpow] at hm hn
    have htail : m / 16 = n / 16 := ih (m / 16) (n / 16) (by omega) (by omega) h2
    omega

/-! ## Claim theorems -/

/-- C5: download_from_s3 and upload_to_s3 never raise past their boundary:
download_from_s3 returns either the downloaded bytes or none, and
upload_to_s3 returns either the locator string s3://bucket/object_path on
success or none on failure, for every storage oracle and input. -/
theorem storage_wrappers_never_raise :
    ∀ (α : Type) (s3get : String → String → Except String Bytes)
      (s3put : α → String → String → Except String Unit)
      (data : α) (bucket object_path : String),
      (download_from_s3 s3get bucket object_path = none ∨
        ∃ d, s3get bucket object_path = Except.ok d ∧
          download_from_s3 s3get bucket object_path = some d) ∧
      (upload_to_s3 s3put data bucket object_path = none ∨
        upload_to_s3 s3put data bucket object_path =
          some ("s3://" ++ bucket ++ "/" ++ object_path)) := by
  intro α s3get s3put data bucket object_path
  constructor
  · cases h : s3get bucket object_path with
    | ok d =>
      refine Or.inr ⟨d, rfl, ?_⟩
      simp [download_from_s3, h]
    | error e => exact Or.inl (by simp [download_from_s3, h])
  · cases h : s3put data bucket object_path with
    | ok u => exact Or.inr (by simp [upload_to_s3, h])
    | error e => exact Or.inl (by simp [upload_to_s3, h])

/-- C6 counterexample: two build_json_response calls with identical request
id and task result but different clock readings produce different envelopes,
so the function is not reproducible on equal inputs: the created field is a
hidden clock read. -/
theorem build_json_response_not_reproducible :
    build_json_response "2024-05-01 10:00:00.000001" "req_1"
        ⟨"completed", Json.obj []⟩ ≠
      build_json_response "2024-05-01 10:00:00.000002" "req_1"
        ⟨"completed", Json.obj []⟩ := by
  intro h
  simp [build_json_response] at h

/-- C6 amended: build_json_response has no failure mode (it is a total
function of the clock reading, the request id and the task result), and is
deterministic in every field except created: two calls with the same request
id and task result agree on the id, finished_reason and result fields for
any two clock readings. -/
theorem build_json_response_deterministic_except_created :
    ∀ (t1 t2 request_id : String) (job_result : InferenceTaskResult),
      lookupField (build_json_response t1 request_id job_result) "id" =
        lookupField (build_json_response t2 request_id job_result) "id" ∧
      lookupField (build_json_response t1 request_id job_result) "finished_reason" =
        lookupField (build_json_response t2 request_id job_result) "finished_reason" ∧
      lookupField (build_json_response t1 request_id job_result) "result" =
        lookupField (build_json_response t2 request_id job_result) "result" := by
  intro t1 t2 request_id job_result
  refine ⟨?_, ?_, ?_⟩ <;> simp [build_json_response, lookupField, lookupKey]

/-- C7: the envelope built by build_json_response has exactly the fields
created, id, finished_reason and result, in that order, and decoding it by
field lookup recovers the request id, the finished_reason of the task result
and the result of the task result unchanged. -/
theorem build_json_response_envelope_fields :
    ∀ (now request_id : String) (job_result : InferenceTaskResult),
      fieldKeys (build_json_response now request_id job_result) =
        ["created", "id", "finished_reason", "result"] ∧
      lookupField (build_json_response now request_id job_result) "id" =
        some (Json.str request_id) ∧
      lookupField (build_json_response now request_id job_result) "finished_reason" =
        some (Json.str job_result.finished_reason) ∧
      lookupField (build_json_response now request_id job_result) "result" =
        some job_result.result := by
  intro now request_id job_result
  refine ⟨rfl, ?_, ?_, ?_⟩ <;> simp [build_json_response, lookupField, lookupKey]

/-- C8: gen_request_id returns the api name, an underscore and the hex form
of the 128-bit random token (32 lowercase hexadecimal digits), and for a
fixed api name it is injective in the token, so distinct uuid4 draws give
pairwise distinct request ids. -/
theorem gen_request_id_spec (api_name : String) (u1 u2 : Nat)
    (h1 : u1 < 2 ^ 128) (h2 : u2 < 2 ^ 128) :
    gen_request_id api_name u1 = api_name ++ "_" ++ uuidHex u1 ∧
    (uuidHex u1).length = 32 ∧
    (uuidHex u1).data.all isLowerHexDigit = true ∧
    (u1 ≠ u2 → gen_request_id api_name u1 ≠ gen_request_id api_name u2) := by
  have hpow : (2 : Nat) ^ 128 = 16 ^ 32 := by norm_num
  refine ⟨rfl, ?_, ?_, ?_⟩
  · show ((hexDigitsAux 32 u1).reverse).length = 32
    simp [hexDigitsAux_length]
  · show ((hexDigitsAux 32 u1).reverse).all isLowerHexDigit = true
    rw [List.all_reverse]
    exact hexDigitsAux_all_hex 32 u1
  · intro hne heq
    apply hne
    have hdata := congrArg String.data heq
    simp only [gen_request_id, String.data_append, List.append_assoc,
      List.append_cancel_left_eq] at hdata
    have h4 : hexDigitsAux 32 u1 = hexDigitsAux 32 u2 := by
      have h3 : (hexDigitsAux 32 u1).reverse = (hexDigitsAux 32 u2).reverse := hdata
      simpa using h3
    exact hexDigitsAux_inj 32 u1 u2 (hpow ▸ h1) (hpow ▸ h2) h4

/-- C8 witness: two concrete distinct tokens give distinct request ids. -/
theorem gen_request_id_spec_witness :
    gen_request_id "image_to_image" 0 ≠ gen_request_id "image_to_image" 1 :=
  (gen_request_id_spec "image_to_image" 0 1 (by norm_num) (by norm_num)).2.2.2
    (by norm_num)

/-- C2 (code bug): resize_image raises TypeError on every call, including a
768 by 768 tensor that is within both dimension bounds: height and width are
Python ints from the shape tuple, and torch.where rejects the plain bool
condition height > width before any scale is computed, so no input is ever
returned unchanged and no input is ever rescaled. -/
theorem resize_image_always_raises :
    resize_image ⟨3, 768, 768, []⟩ 768 1024 =
      Except.error "TypeError: where(): argument condition (position 1) must be Tensor, not bool" ∧
    ∀ (t : ImgTensor) (minD maxD : Nat), resize_image t minD maxD ≠ Except.ok (Sum.inl t) := by
  refine ⟨rfl, fun t minD maxD h => ?_⟩
  rw [show resize_image t minD maxD = Except.error
    "TypeError: where(): argument condition (position 1) must be Tensor, not bool" from rfl] at h
  exact Except.noConfusion h

/-- C3: in the load pipeline the denormal cleanup runs after deserialization
and before the precision and device conversion and the switch out of training
mode, so every deserialized parameter of magnitude below 1e-5 is exactly zero
in the loaded model, and stays zero through the reduced-precision conversion
(any conversion that maps zero to zero, as float16 rounding does). -/
theorem load_model_zeroes_denormals_before_half :
    ∀ (deserialized : List ℚ) (halfRound : ℚ → ℚ), halfRound 0 = 0 →
      ∀ (i : Nat) (p : ℚ), deserialized[i]? = some p → |p| < denorm_eps →
        (load_model deserialized halfRound).params[i]? = some 0 ∧
        (load_model deserialized halfRound).dtype = "float16" ∧
        (load_model deserialized halfRound).training = false := by
  intro deserialized halfRound hzero i p hi hlt
  refine ⟨?_, rfl, rfl⟩
  show ((deserialized.map (fun param => if |param| < denorm_eps then 0 else param)).map
    halfRound)[i]? = some 0
  simp [List.getElem?_map, hi, hlt, hzero]

/-- C3 witness: loading the parameter list with a denormal first entry zeroes
it, with the identity as the zero-preserving precision conversion. -/
theorem load_model_zeroes_denormals_before_half_witness :
    (load_model [1 / 200000, 3] id).params[0]? = some 0 :=
  (load_model_zeroes_denormals_before_half [1 / 200000, 3] id rfl 0 (1 / 200000)
    rfl (by norm_num [denorm_eps, abs])).1

/-- C4 (code bug): image_to_tensor raises on every decodable image instead of
returning a channel-first normalized tensor: the results of view and permute
are discarded (so the layout stays channel-last, and a single-band image even
makes the permute call itself raise, its argument count not matching a rank-2
tensor), and the final unsqueeze call lacks its required dim argument and
raises TypeError. Evaluated here on a 1 by 1 RGB image and on a 2 by 2
mode 1 image. -/
theorem image_to_tensor_always_raises :
    image_to_tensor ⟨"RGB", 1, 1, 3, [10, 20, 30]⟩ =
      Except.error "TypeError: unsqueeze() missing 1 required positional argument: dim" ∧
    image_to_tensor ⟨"1", 2, 2, 1, [0, 1, 1, 0]⟩ =
      Except.error "RuntimeError: number of dims do not match in permute" := by
  constructor <;> rfl

/-- C1 (code bug): a job whose single input fetches successfully (N = 1,
K = 0) makes _image_to_image raise (the TypeError escaping image_to_tensor)
instead of returning output lists of length N - K = 1; only a job where
every fetch fails (K = N) returns without raising, with empty lists. -/
theorem image_to_image_raises_on_successful_fetch :
    (image_to_image (fun _ => Except.ok ⟨"RGB", 1, 1, 3, [5, 6, 7]⟩) id
        (fun _ _ _ => Except.ok ()) [("img1", some [1, 2, 3])]).raised =
      some "TypeError: unsqueeze() missing 1 required positional argument: dim" ∧
    image_to_image (fun _ => Except.ok ⟨"RGB", 1, 1, 3, [5, 6, 7]⟩) id
        (fun _ _ _ => Except.ok ()) [("a", none), ("b", none)] =
      { raised := none, images_uri := [], cleaned_images_uri := [],
        put_keys := [] } := by
  constructor <;> rfl

/-- C9 (code bug): for a successfully fetched item no upload is attempted at
all: the loop raises in image_to_tensor before the two upload_to_s3 calls,
so the trace of storage keys is empty and no locator reaches the two output
lists. -/
theorem image_to_image_uploads_unreachable :
    (image_to_image (fun _ => Except.ok ⟨"RGB", 2, 2, 3, [1, 2, 3, 4, 5, 6, 7, 8, 9, 10, 11, 12]⟩)
        id (fun _ _ _ => Except.ok ()) [("ref9", some [9])]).put_keys = [] ∧
    (image_to_image (fun _ => Except.ok ⟨"RGB", 2, 2, 3, [1, 2, 3, 4, 5, 6, 7, 8, 9, 10, 11, 12]⟩)
        id (fun _ _ _ => Except.ok ()) [("ref9", some [9])]).raised.isSome = true := by
  constructor <;> rfl

/-- C10 (code bug): even with an upload oracle that fails, no None sentinel
is ever appended to the output lists, because the loop raises in
image_to_tensor before any item reaches the upload stage; the call escapes
with an exception and empty lists. -/
theorem image_to_image_no_append_on_upload_failure :
    (image_to_image (fun _ => Except.ok ⟨"L", 1, 1, 1, [7]⟩) id
        (fun _ _ _ => Except.error "ParamValidationError") [("ref10", some [1])]).images_uri = [] ∧
    (image_to_image (fun _ => Except.ok ⟨"L", 1, 1, 1, [7]⟩) id
        (fun _ _ _ => Except.error "ParamValidationError") [("ref10", some [1])]).cleaned_images_uri = [] ∧
    (image_to_image (fun _ => Except.ok ⟨"L", 1, 1, 1, [7]⟩) id
        (fun _ _ _ => Except.error "ParamValidationError") [("ref10", some [1])]).raised.isSome = true := by
  refine ⟨rfl, rfl, rfl⟩

end KFastml
